import Mathlib

/-!
# Datadog logs demo (Go): a shallow embedding of `apps/datadog-logs-demo-go/main.go`

The program is a timer-driven generator of structured log records.  The embedding keeps
the three layers of the source:

* the field randomizers (`randomRegion`, `randomStatusCode`, `randomString`, ...),
* the eight scenario generators (`generateBusinessKPILogs`, ...),
* the driver loop of `main` (`nextScenario`, `dispatch`, `run`).

Modelling conventions.

* The process-wide `math/rand` source and the logrus sink are external to the repository.
  They are made explicit as a state (`World`): the source is the sequence of results it
  hands out, the sink is the list of records it has received.
* A Go `int` is a `Nat` where the value is a result of `rand.Intn` (never negative) and an
  `Int` otherwise; none of the integer expressions of the program can overflow 64 bits.
* A `float64` is modelled by its exact value, a rational.  Every float64 of the program
  is a result of `rand.Float64()`, a product of such a result with a positive constant, a
  quotient by a count that is at least 1, or the conversion of a small `int`; so it is a
  finite number, and comparisons of float64 values are comparisons of their exact values.
  A decimal constant of the source that is not representable (`0.85`, `0.70`, `0.7`) is
  modelled by the float64 the Go compiler rounds it to.  Products and quotients are
  rounded by the runtime; that rounding is a parameter `fl` of the generators, and every
  theorem holds for every `fl`.
* A Go `string` is a `String`; the strings of the program are ASCII literals and
  concatenations of them.  `len` is `String.utf8ByteSize`.
* A generator with a branch on a drawn value is split at the draw: `generateXWith v` is
  the rest of the body of `generateX` once the drawn value `v` is bound, and `generateX`
  is the draw followed by `generateXWith`.
-/

namespace LogsDemo

/-! ## Data model -/

/-- Severity of an emitted record (logrus `Info`, `Warn`, `Error`). -/
inductive Level where
  | info
  | warning
  | error
  deriving DecidableEq, Repr

/-- Scalar value of a field of `log.Fields`. -/
inductive Value where
  | str (s : String)
  | int (n : Int)
  | float (q : ℚ)
  | bool (b : Bool)
  deriving DecidableEq

/-- One emission: `log.WithFields(fields).<Level>(msg)`. -/
structure Record where
  level : Level
  msg : String
  fields : List (String × Value)
  deriving DecidableEq

/-- Field names of a record, in the order of the source literal. -/
def Record.keys (rec : Record) : List String := rec.fields.map Prod.fst

/-- Value stored under a field name. -/
def Record.get (rec : Record) (key : String) : Option Value :=
  (rec.fields.find? (fun kv => kv.1 == key)).map Prod.snd

/-- The process state the generators act on: the random source (a cursor `pos` into the
results `ints`, `floats` that the source hands out) and the records received by the sink. -/
structure World where
  pos : Nat
  ints : Nat → Nat
  floats : Nat → ℚ
  out : List Record

/-- A statement sequence of the program: a state transformer on `World`. -/
def Gen (α : Type) : Type := World → α × World

instance : Monad Gen where
  pure a := fun w => (a, w)
  bind m f := fun w => f (m w).1 (m w).2

/-- Go `rand.Intn(n)`: a result in `[0, n)`; every call site passes a positive constant. -/
def Intn (n : Nat) : Gen Nat :=
  fun w => (w.ints w.pos % n, { w with pos := w.pos + 1 })

/-- Go `rand.Float64()`: the next float64 of the source (in `[0, 1)` by its contract). -/
def Float64 : Gen ℚ :=
  fun w => (w.floats w.pos, { w with pos := w.pos + 1 })

/-- Hand one record to the sink. -/
def emit (level : Level) (msg : String) (fields : List (String × Value)) : Gen Unit :=
  fun w => ((), { w with out := w.out ++ [⟨level, msg, fields⟩] })

/-- The records a generator hands to the sink when run in world `w`, oldest first: what
it adds to `w.out`. -/
def emitted (g : Gen Unit) (w : World) : List Record :=
  (g w).2.out.drop w.out.length

/-! ## Field randomizers -/

def randomRegion : Gen String := do
  let regions := ["us-east-1", "us-west-2", "eu-west-1", "ap-southeast-1"]
  let i ← Intn regions.length
  pure (regions.getD i "")

def randomPaymentMethod : Gen String := do
  let methods := ["credit_card", "debit_card", "paypal", "apple_pay", "google_pay",
    "bank_transfer"]
  let i ← Intn methods.length
  pure (methods.getD i "")

def randomCustomerSegment : Gen String := do
  let segments := ["new", "returning", "vip", "enterprise", "small_business"]
  let i ← Intn segments.length
  pure (segments.getD i "")

/-- The slice `statuses` of `randomTransactionStatus`. -/
def transactionStatuses : List String := ["success", "failed", "pending"]

/-- The slice `weights` of `randomTransactionStatus`. -/
def transactionWeights : List Nat := [80, 10, 10]

/-- Body of `randomTransactionStatus` after `r := rand.Intn(100)`. -/
def randomTransactionStatusOf (r : Nat) : String :=
  if r < transactionWeights.getD 0 0 then
    transactionStatuses.getD 0 ""
  else if r < transactionWeights.getD 0 0 + transactionWeights.getD 1 0 then
    transactionStatuses.getD 1 ""
  else
    transactionStatuses.getD 2 ""

def randomTransactionStatus : Gen String := do
  let r ← Intn 100
  pure (randomTransactionStatusOf r)

def randomPaymentGateway : Gen String := do
  let gateways := ["stripe", "paypal", "square", "braintree", "adyen"]
  let i ← Intn gateways.length
  pure (gateways.getD i "")

def randomCountry : Gen String := do
  let countries := ["US", "UK", "DE", "FR", "JP", "AU", "CA", "SG"]
  let i ← Intn countries.length
  pure (countries.getD i "")

def randomEndpoint : Gen String := do
  let endpoints := ["/api/v1/users", "/api/v1/orders", "/api/v1/products",
    "/api/v1/checkout", "/api/v1/payments"]
  let i ← Intn endpoints.length
  pure (endpoints.getD i "")

def randomHTTPMethod : Gen String := do
  let methods := ["GET", "POST", "PUT", "DELETE", "PATCH"]
  let i ← Intn methods.length
  pure (methods.getD i "")

/-- The slice `codes` of `randomStatusCode`. -/
def statusCodes : List Int := [200, 201, 204, 400, 401, 403, 404, 500, 502, 503]

/-- The slice `weights` of `randomStatusCode`. -/
def statusWeights : List Nat := [70, 10, 5, 5, 2, 2, 2, 2, 1, 1]

/-- The loop `for i, weight := range weights` of `randomStatusCode`, entered at index `i`
with the running sum `cumulative` and the weights still to visit: `some code` when the
loop body returns `codes[i]`, `none` when the loop runs off the end of `weights`. -/
def statusCodeLoop (r : Nat) : Nat → Nat → List Nat → Option Int
  | _, _, [] => none
  | i, cumulative, weight :: rest =>
    if r < cumulative + weight then some (statusCodes.getD i 0)
    else statusCodeLoop r (i + 1) (cumulative + weight) rest

/-- Body of `randomStatusCode` after `r := rand.Intn(100)`: the loop, then the trailing
`return 200`. -/
def randomStatusCodeOf (r : Nat) : Int :=
  match statusCodeLoop r 0 0 statusWeights with
  | some code => code
  | none => 200

def randomStatusCode : Gen Int := do
  let r ← Intn 100
  pure (randomStatusCodeOf r)

def randomPage : Gen String := do
  let pages := ["home", "products", "cart", "checkout", "account", "search"]
  let i ← Intn pages.length
  pure (pages.getD i "")

def randomDeviceType : Gen String := do
  let devices := ["desktop", "mobile", "tablet"]
  let i ← Intn devices.length
  pure (devices.getD i "")

def randomBrowser : Gen String := do
  let browsers := ["Chrome", "Firefox", "Safari", "Edge"]
  let i ← Intn browsers.length
  pure (browsers.getD i "")

def randomReferrer : Gen String := do
  let referrers := ["google", "facebook", "twitter", "direct", "email"]
  let i ← Intn referrers.length
  pure (referrers.getD i "")

def randomABTestVariant : Gen String := do
  let variants := ["control", "variant_a", "variant_b"]
  let i ← Intn variants.length
  pure (variants.getD i "")

def randomUserAgent : Gen String := do
  let agents := [
    "Mozilla/5.0 (Windows NT 10.0; Win64; x64) Chrome/91.0",
    "Mozilla/5.0 (Macintosh; Intel Mac OS X 10_15_7) Safari/14.1",
    "Mozilla/5.0 (X11; Linux x86_64) Firefox/89.0"]
  let i ← Intn agents.length
  pure (agents.getD i "")

def randomIPSegment : Gen String := do
  let segments := ["192", "10", "172", "203", "8"]
  let i ← Intn segments.length
  pure (segments.getD i "")

def randomIPv4 : Gen String := do
  let a ← randomIPSegment
  let b ← randomIPSegment
  let c ← randomIPSegment
  let d ← randomIPSegment
  pure (a ++ "." ++ b ++ "." ++ c ++ "." ++ d)

def randomIP : Gen String := randomIPv4

def randomIPAddress : Gen String := randomIP

def randomCardType : Gen String := do
  let types := ["visa", "mastercard", "amex", "discover"]
  let i ← Intn types.length
  pure (types.getD i "")

/-- Go `getFraudStatus(score float64)`.  `score` is the exact value of the argument, a
number (the only caller passes `rand.Float64() * 100`); 70 and 40 are exact float64
values, so the two comparisons are those of the source. -/
def getFraudStatus (score : ℚ) : String :=
  if score > 70 then "high_risk"
  else if score > 40 then "medium_risk"
  else "low_risk"

def getSecurityResult (eventType : String) : String :=
  if eventType = "login_failure" ∨ eventType = "access_denied" then "denied"
  else "allowed"

/-- The constant `charset` of `randomString`. -/
def charset : String := "ABCDEFGHIJKLMNOPQRSTUVWXYZ0123456789"

/-- The loop `for i := range b` of `randomString` over a buffer of `length` bytes: one
`rand.Intn(len(charset))` per byte, in index order. -/
def randomBytes : Nat → Gen (List Char)
  | 0 => pure []
  | length + 1 => do
    let i ← Intn charset.length
    let rest ← randomBytes length
    pure (charset.data.getD i 'A' :: rest)

/-- Go `randomString(prefix, length)`; `length` is never negative at a call site (a negative
`length` makes `make` fail at run time and is outside the model). -/
def randomString (pfx : String) (length : Nat) : Gen String := do
  let b ← randomBytes length
  pure (pfx ++ "_" ++ String.mk b)

def generateOrderID : Gen String := randomString "ORD" 10

def generateTransactionID : Gen String := randomString "TXN" 12

def generateMerchantID : Gen String := randomString "MER" 8

def generateUserID : Gen String := randomString "USR" 8

def generateSessionID : Gen String := randomString "SES" 16

def generatePaymentID : Gen String := randomString "PAY" 12

def generateAPIKey : Gen String := randomString "API" 20

def generateErrorMessage (errorType : String) : String :=
  if errorType = "validation_error" then "Invalid input parameters"
  else if errorType = "database_error" then "Database connection timeout"
  else if errorType = "api_error" then "External API request failed"
  else if errorType = "timeout_error" then "Request timeout exceeded"
  else if errorType = "authentication_error" then "Invalid credentials"
  else "Unknown error"

def generateErrorCode (errorType : String) : String :=
  if errorType = "validation_error" then "ERR_VALIDATION_001"
  else if errorType = "database_error" then "ERR_DATABASE_002"
  else if errorType = "api_error" then "ERR_API_003"
  else if errorType = "timeout_error" then "ERR_TIMEOUT_004"
  else if errorType = "authentication_error" then "ERR_AUTH_005"
  else "ERR_UNKNOWN_000"

def generateStackTrace : String :=
  "at main.processPayment(main.go:123)\nat main.handleRequest(main.go:89)\nat main.main(main.go:45)"

/-! ## Float64 constants -/

/-- Exact values of the float64 numbers in `(-2^53, 2^53)`, which include every result of
`rand.Float64()`: in lowest terms the denominator is a power of two, at most `2^1074`,
and the numerator fits the 53-bit significand. -/
def IsFloat64 (q : ℚ) : Prop := q.den ∣ 2 ^ 1074 ∧ q.num.natAbs < 2 ^ 53

instance : DecidablePred IsFloat64 := fun q => by
  unfold IsFloat64
  infer_instance

/-- The float64 the constant `0.85` of `generateErrorLogs` denotes:
`7656119366529843 / 2^53`, the float64 nearest to 85/100. -/
def const085 : ℚ := 7656119366529843 / 9007199254740992

/-- The float64 the constants `0.70` of `generateErrorLogs` and `0.7` of
`generateSecurityEventLogs` denote: `6305039478318694 / 2^53`, the float64 nearest to
7/10. -/
def const070 : ℚ := 6305039478318694 / 9007199254740992

/-! ## Scenario generators

`fl` is the rounding of an exact product or quotient to float64 performed by the
runtime.  The calls inside a `log.Fields` literal are made in the order in which they are
written, which is the order of the `let`s below. -/

def generateBusinessKPILogs (fl : ℚ → ℚ) : Gen Unit := do
  let revenue := fl ((← Float64) * 1000)
  let orderCount := (← Intn 50) + 1
  let avgOrderValue := fl (revenue / (orderCount : ℚ))
  let region ← randomRegion
  let paymentMethod ← randomPaymentMethod
  let conversionRate := fl ((← Float64) * 10)
  let customerSegment ← randomCustomerSegment
  emit .info "Business KPI metrics generated" [
    ("event_type", .str "business_kpi"),
    ("metric_name", .str "revenue"),
    ("revenue", .float revenue),
    ("order_count", .int orderCount),
    ("avg_order_value", .float avgOrderValue),
    ("currency", .str "USD"),
    ("region", .str region),
    ("business_unit", .str "ecommerce"),
    ("payment_method", .str paymentMethod),
    ("conversion_rate", .float conversionRate),
    ("customer_segment", .str customerSegment)]
  let orderID ← generateOrderID
  let customerType ← randomCustomerSegment
  let productCount := (← Intn 10) + 1
  let discount := fl ((← Float64) * 50)
  emit .info "Order completed successfully" [
    ("event_type", .str "order_completed"),
    ("order_value", .float (fl (revenue / (orderCount : ℚ)))),
    ("order_id", .str orderID),
    ("customer_type", .str customerType),
    ("product_count", .int productCount),
    ("discount", .float discount)]

def generateTransactionLogs (fl : ℚ → ℚ) : Gen Unit := do
  let transactionValue := fl ((← Float64) * 500)
  let status ← randomTransactionStatus
  let duration := (← Intn 3000) + 100
  let transactionID ← generateTransactionID
  let paymentGateway ← randomPaymentGateway
  let country ← randomCountry
  let riskScore := fl ((← Float64) * 100)
  let merchantID ← generateMerchantID
  let fields : List (String × Value) := [
    ("event_type", .str "transaction"),
    ("transaction_id", .str transactionID),
    ("transaction_value", .float transactionValue),
    ("transaction_status", .str status),
    ("duration_ms", .int duration),
    ("payment_gateway", .str paymentGateway),
    ("currency", .str "USD"),
    ("country", .str country),
    ("risk_score", .float riskScore),
    ("merchant_id", .str merchantID)]
  if status = "failed" then
    emit .warning "Transaction failed" fields
  else if status = "pending" then
    emit .info "Transaction pending" fields
  else
    emit .info "Transaction completed successfully" fields

/-- The statements of `generateErrorLogs` that follow `errorRate := rand.Float64()`. -/
def generateErrorLogsWith (errorType : String) (errorRate : ℚ) : Gen Unit := do
  if errorRate > const085 then
    let endpoint ← randomEndpoint
    let userID ← generateUserID
    let sessionID ← generateSessionID
    let retryCount ← Intn 3
    emit .error "Critical error occurred" [
      ("event_type", .str "error"),
      ("error_type", .str errorType),
      ("error_message", .str (generateErrorMessage errorType)),
      ("error_code", .str (generateErrorCode errorType)),
      ("service", .str "checkout-service"),
      ("endpoint", .str endpoint),
      ("user_id", .str userID),
      ("session_id", .str sessionID),
      ("stack_trace", .str generateStackTrace),
      ("severity", .str "high"),
      ("retry_count", .int retryCount)]
  else if errorRate > const070 then
    let currentRate := (← Intn 900) + 100
    let endpoint ← randomEndpoint
    emit .warning "Rate limit threshold approaching" [
      ("event_type", .str "warning"),
      ("warning_type", .str "rate_limit_approaching"),
      ("current_rate", .int currentRate),
      ("limit", .int 1000),
      ("service", .str "api-gateway"),
      ("endpoint", .str endpoint)]
  else
    emit .info "Service operating normally" [
      ("event_type", .str "info"),
      ("message", .str "Normal operation"),
      ("service", .str "checkout-service")]

def generateErrorLogs : Gen Unit := do
  let errorTypes := ["validation_error", "database_error", "api_error", "timeout_error",
    "authentication_error"]
  let errorType := errorTypes.getD (← Intn errorTypes.length) ""
  let errorRate ← Float64
  generateErrorLogsWith errorType errorRate

def generatePerformanceLogs (fl : ℚ → ℚ) : Gen Unit := do
  let latency := (← Intn 1000) + 50
  let throughput := (← Intn 1000) + 100
  let cpuUsage := fl ((← Float64) * 100)
  let memoryUsage ← Intn 2048
  let dbQueryTime ← Intn 500
  let cacheHitRate := fl ((← Float64) * 100)
  let endpoint ← randomEndpoint
  let method ← randomHTTPMethod
  emit .info "Performance metrics collected" [
    ("event_type", .str "performance"),
    ("metric_type", .str "latency"),
    ("latency_ms", .int latency),
    ("throughput_rps", .int throughput),
    ("cpu_usage", .float cpuUsage),
    ("memory_usage_mb", .int memoryUsage),
    ("db_query_time", .int dbQueryTime),
    ("cache_hit_rate", .float cacheHitRate),
    ("service", .str "api-service"),
    ("endpoint", .str endpoint),
    ("method", .str method)]
  let endpoint2 ← randomEndpoint
  let statusCode ← randomStatusCode
  emit .info "API response time measured" [
    ("event_type", .str "measure"),
    ("measure_name", .str "api_response_time"),
    ("measure_value", .float (latency : ℚ)),
    ("measure_unit", .str "milliseconds"),
    ("endpoint", .str endpoint2),
    ("status_code", .int statusCode)]

def generateUserActivityLogs : Gen Unit := do
  let activities := ["page_view", "button_click", "search", "add_to_cart", "checkout",
    "signup", "login"]
  let activity := activities.getD (← Intn activities.length) ""
  let userID ← generateUserID
  let sessionID ← generateSessionID
  let page ← randomPage
  let durationSec ← Intn 300
  let deviceType ← randomDeviceType
  let browser ← randomBrowser
  let country ← randomCountry
  let referrer ← randomReferrer
  let abTestVariant ← randomABTestVariant
  emit .info "User activity recorded" [
    ("event_type", .str "user_activity"),
    ("activity_type", .str activity),
    ("user_id", .str userID),
    ("session_id", .str sessionID),
    ("page", .str page),
    ("duration_sec", .int durationSec),
    ("device_type", .str deviceType),
    ("browser", .str browser),
    ("country", .str country),
    ("referrer", .str referrer),
    ("ab_test_variant", .str abTestVariant)]

/-- The statements of `generateAPIRequestLogs` that follow
`statusCode := randomStatusCode()`. -/
def generateAPIRequestLogsWith (statusCode : Int) : Gen Unit := do
  let duration := (← Intn 2000) + 50
  let method ← randomHTTPMethod
  let endpoint ← randomEndpoint
  let requestSize ← Intn 10000
  let responseSize ← Intn 50000
  let userAgent ← randomUserAgent
  let ipAddress ← randomIPAddress
  let apiKey ← generateAPIKey
  let rateLimitRemaining ← Intn 1000
  let fields : List (String × Value) := [
    ("event_type", .str "api_request"),
    ("method", .str method),
    ("endpoint", .str endpoint),
    ("status_code", .int statusCode),
    ("duration_ms", .int duration),
    ("request_size", .int requestSize),
    ("response_size", .int responseSize),
    ("user_agent", .str userAgent),
    ("ip_address", .str ipAddress),
    ("api_key", .str apiKey),
    ("rate_limit_remaining", .int rateLimitRemaining)]
  if statusCode ≥ 500 then
    emit .error "API request failed with server error" fields
  else if statusCode ≥ 400 then
    emit .warning "API request failed with client error" fields
  else
    emit .info "API request completed successfully" fields

def generateAPIRequestLogs : Gen Unit := do
  let statusCode ← randomStatusCode
  generateAPIRequestLogsWith statusCode

/-- The statements of `generatePaymentProcessingLogs` that follow
`fraudScore := rand.Float64() * 100`. -/
def generatePaymentProcessingLogsWith (amount fraudScore : ℚ) : Gen Unit := do
  let paymentID ← generatePaymentID
  let paymentMethod ← randomPaymentMethod
  let cardType ← randomCardType
  let verified3ds := decide ((← Float64) > 1 / 2)
  let country ← randomCountry
  let merchantID ← generateMerchantID
  let processor ← randomPaymentGateway
  let retryAttempt ← Intn 3
  emit .info "Payment processed" [
    ("event_type", .str "payment_processing"),
    ("payment_id", .str paymentID),
    ("amount", .float amount),
    ("currency", .str "USD"),
    ("payment_method", .str paymentMethod),
    ("card_type", .str cardType),
    ("fraud_score", .float fraudScore),
    ("fraud_status", .str (getFraudStatus fraudScore)),
    ("3ds_verified", .bool verified3ds),
    ("country", .str country),
    ("merchant_id", .str merchantID),
    ("processor", .str processor),
    ("retry_attempt", .int retryAttempt)]
  if fraudScore > 80 then
    let alertPaymentID ← generatePaymentID
    emit .warning "High fraud score detected - payment blocked" [
      ("event_type", .str "fraud_alert"),
      ("payment_id", .str alertPaymentID),
      ("fraud_score", .float fraudScore),
      ("alert_level", .str "high"),
      ("action_taken", .str "blocked")]

def generatePaymentProcessingLogs (fl : ℚ → ℚ) : Gen Unit := do
  let amount := fl ((← Float64) * 1000)
  let fraudScore := fl ((← Float64) * 100)
  generatePaymentProcessingLogsWith amount fraudScore

/-- Go `generateSecurityEventLogs`; `now` is the value of `time.Now().Unix()`. -/
def generateSecurityEventLogs (now : Int) : Gen Unit := do
  let eventTypes := ["login_success", "login_failure", "password_change",
    "permission_change", "access_denied"]
  let eventType := eventTypes.getD (← Intn eventTypes.length) ""
  let userID ← generateUserID
  let ipAddress ← randomIPAddress
  let userAgent ← randomUserAgent
  let country ← randomCountry
  let sessionID ← generateSessionID
  emit .info "Security event logged" [
    ("event_type", .str "security_event"),
    ("security_event", .str eventType),
    ("user_id", .str userID),
    ("ip_address", .str ipAddress),
    ("user_agent", .str userAgent),
    ("country", .str country),
    ("timestamp", .int now),
    ("session_id", .str sessionID),
    ("result", .str (getSecurityResult eventType))]
  if eventType = "login_failure" then
    if (← Float64) > const070 then
      let alertUserID ← generateUserID
      let attemptCount := (← Intn 10) + 5
      let alertIP ← randomIPAddress
      emit .warning "Multiple failed login attempts detected" [
        ("event_type", .str "security_alert"),
        ("alert_type", .str "multiple_failed_logins"),
        ("user_id", .str alertUserID),
        ("attempt_count", .int attemptCount),
        ("ip_address", .str alertIP),
        ("time_window_min", .int 5)]

/-! ## Identifier format -/

/-- The format `<pfx>_<n characters of charset>` of a generated identifier. -/
def IsIdentifier (pfx : String) (n : Nat) (s : String) : Prop :=
  ∃ chars : List Char,
    s = pfx ++ "_" ++ String.mk chars ∧ chars.length = n ∧ ∀ c ∈ chars, c ∈ charset.data

/-! ## Record shapes -/

/-- The record types of the program, one entry per `log.Fields` literal of the source:
the value of `event_type` and the field names of the literal. -/
def recordShapes : List (String × List String) := [
  ("business_kpi", ["event_type", "metric_name", "revenue", "order_count",
    "avg_order_value", "currency", "region", "business_unit", "payment_method",
    "conversion_rate", "customer_segment"]),
  ("order_completed", ["event_type", "order_value", "order_id", "customer_type",
    "product_count", "discount"]),
  ("transaction", ["event_type", "transaction_id", "transaction_value",
    "transaction_status", "duration_ms", "payment_gateway", "currency", "country",
    "risk_score", "merchant_id"]),
  ("error", ["event_type", "error_type", "error_message", "error_code", "service",
    "endpoint", "user_id", "session_id", "stack_trace", "severity", "retry_count"]),
  ("warning", ["event_type", "warning_type", "current_rate", "limit", "service",
    "endpoint"]),
  ("info", ["event_type", "message", "service"]),
  ("performance", ["event_type", "metric_type", "latency_ms", "throughput_rps",
    "cpu_usage", "memory_usage_mb", "db_query_time", "cache_hit_rate", "service",
    "endpoint", "method"]),
  ("measure", ["event_type", "measure_name", "measure_value", "measure_unit", "endpoint",
    "status_code"]),
  ("user_activity", ["event_type", "activity_type", "user_id", "session_id", "page",
    "duration_sec", "device_type", "browser", "country", "referrer", "ab_test_variant"]),
  ("api_request", ["event_type", "method", "endpoint", "status_code", "duration_ms",
    "request_size", "response_size", "user_agent", "ip_address", "api_key",
    "rate_limit_remaining"]),
  ("payment_processing", ["event_type", "payment_id", "amount", "currency",
    "payment_method", "card_type", "fraud_score", "fraud_status", "3ds_verified",
    "country", "merchant_id", "processor", "retry_attempt"]),
  ("fraud_alert", ["event_type", "payment_id", "fraud_score", "alert_level",
    "action_taken"]),
  ("security_event", ["event_type", "security_event", "user_id", "ip_address",
    "user_agent", "country", "timestamp", "session_id", "result"]),
  ("security_alert", ["event_type", "alert_type", "user_id", "attempt_count",
    "ip_address", "time_window_min"])]

/-- The record is of one of the types of `recordShapes`: its `event_type` is the string
of an entry and its field names are those of that entry. -/
def Record.wellShaped (rec : Record) : Bool :=
  recordShapes.any (fun shape =>
    rec.get "event_type" == some (.str shape.1) && rec.keys == shape.2)

/-! ## Distribution tables -/

/-- Cumulative thresholds of the status-code distribution, as the specification lists
them (running sums of the weights). -/
def statusThresholds : List Nat := [70, 80, 85, 90, 92, 94, 96, 98, 99, 100]

/-- Number of draws `r` in `[0, 100)` on which `randomStatusCode` returns `code`. -/
def statusCodeCount (code : Int) : Nat :=
  ((List.range 100).filter (fun r => randomStatusCodeOf r = code)).length

/-- Number of draws `r` in `[0, 100)` on which `randomTransactionStatus` returns
`status`. -/
def transactionStatusCount (status : String) : Nat :=
  ((List.range 100).filter (fun r => randomTransactionStatusOf r = status)).length

/-! ## Driver loop -/

/-- The assignment `scenario = (scenario + 1) % 8` of `main`. -/
def nextScenario (scenario : Nat) : Nat := (scenario + 1) % 8

/-- Value of `scenario` after `n` ticks, from `scenario := 0`. -/
def scenarioAfter : Nat → Nat
  | 0 => 0
  | n + 1 => nextScenario (scenarioAfter n)

/-- The indices dispatched on ticks `start + 1, ..., start + count`. -/
def dispatchedFrom (start count : Nat) : List Nat :=
  (List.range count).map (fun i => scenarioAfter (start + 1 + i))

/-- The `switch scenario` of `main`. -/
def dispatch (fl : ℚ → ℚ) (now : Int) (scenario : Nat) : Gen Unit :=
  match scenario with
  | 0 => generateBusinessKPILogs fl
  | 1 => generateTransactionLogs fl
  | 2 => generateErrorLogs
  | 3 => generatePerformanceLogs fl
  | 4 => generateUserActivityLogs
  | 5 => generateAPIRequestLogs
  | 6 => generatePaymentProcessingLogs fl
  | 7 => generateSecurityEventLogs now
  | _ => pure ()

/-- The loop `for range ticker.C` of `main` run for `n` ticks: the value of `scenario`
and the world after them (`clock i` is the Unix time at tick `i + 1`). -/
def run (fl : ℚ → ℚ) (clock : Nat → Int) : Nat → World → Nat × World
  | 0, w => (0, w)
  | n + 1, w =>
    let scenario := nextScenario (run fl clock n w).1
    (scenario, (dispatch fl (clock n) scenario (run fl clock n w).2).2)

/-! ## Theorems -/

/-! ### The state monad -/

theorem Gen.bind_apply {α β : Type} (m : Gen α) (f : α → Gen β) (w : World) :
    (m >>= f) w = f (m w).1 (m w).2 := rfl

theorem Gen.pure_apply {α : Type} (a : α) (w : World) : (pure a : Gen α) w = (a, w) := rfl

theorem emitted_of_out {g : Gen Unit} {w : World} {recs : List Record}
    (h : (g w).2.out = w.out ++ recs) : emitted g w = recs := by
  simp [emitted, h]

/-! ### Driver -/

theorem scenarioAfter_eq (n : Nat) : scenarioAfter n = n % 8 := by
  induction n with
  | zero => rfl
  | succ k ih => simp only [scenarioAfter, nextScenario, ih]; omega

theorem run_scenario (fl : ℚ → ℚ) (clock : Nat → Int) (n : Nat) (w : World) :
    (run fl clock n w).1 = scenarioAfter n := by
  induction n with
  | zero => rfl
  | succ k ih =>
    show nextScenario (run fl clock k w).1 = nextScenario (scenarioAfter k)
    rw [ih]

/-- C1: from `scenario := 0`, the index dispatched on the n-th tick (n ≥ 1) is `n mod 8`;
the dispatched indices are 1,2,3,4,5,6,7,0 repeating; the counter stays in [0,7]; any
eight consecutive ticks dispatch pairwise distinct indices; the sequence has period 8 and
no shorter period. -/
theorem driver_round_robin :
    (∀ n, 1 ≤ n → scenarioAfter n = n % 8) ∧
    (∀ (fl : ℚ → ℚ) (clock : Nat → Int) (n : Nat) (w : World),
      (run fl clock n w).1 = scenarioAfter n ∧
      (run fl clock (n + 1) w).2 =
        (dispatch fl (clock n) (scenarioAfter (n + 1)) (run fl clock n w).2).2) ∧
    dispatchedFrom 0 16 = [1, 2, 3, 4, 5, 6, 7, 0, 1, 2, 3, 4, 5, 6, 7, 0] ∧
    (∀ n, scenarioAfter n ≤ 7) ∧
    (∀ start, (dispatchedFrom start 8).Nodup) ∧
    (∀ n, scenarioAfter (n + 8) = scenarioAfter n) ∧
    (∀ p, 0 < p → p < 8 → ∀ n, scenarioAfter (n + p) ≠ scenarioAfter n) := by
  refine ⟨fun n _ => scenarioAfter_eq n, ?_, by decide, ?_, ?_, ?_, ?_⟩
  · intro fl clock n w
    refine ⟨run_scenario fl clock n w, ?_⟩
    show (dispatch fl (clock n) (nextScenario (run fl clock n w).1) (run fl clock n w).2).2 = _
    rw [run_scenario]
    rfl
  · intro n
    rw [scenarioAfter_eq]; omega
  · intro start
    unfold dispatchedFrom
    refine (List.nodup_range 8).map_on ?_
    intro i hi j hj h
    rw [List.mem_range] at hi hj
    simp only [scenarioAfter_eq] at h
    omega
  · intro n
    simp only [scenarioAfter_eq]; omega
  · intro p hp hp8 n
    simp only [scenarioAfter_eq]; omega

/-- Witness of C1 at the 11th tick, which dispatches index 3. -/
theorem driver_round_robin_witness : 1 ≤ 11 ∧ scenarioAfter 11 = 11 % 8 :=
  ⟨by decide, driver_round_robin.1 11 (by decide)⟩

/-- C2: for every draw r in [0,100) the loop of `randomStatusCode` returns (it does not
fall through to the trailing `return 200`) the code at the first index whose cumulative
weight exceeds r, with thresholds 70,80,85,90,92,94,96,98,99,100; of the 100 draws, 70
give 200, 10 give 201, 5 give 204, 5 give 400, 2 each give 401, 403, 404, 500 and 1 each
gives 502 and 503. -/
theorem randomStatusCode_distribution :
    (∀ r, r < 100 → ∃ i, i < 10 ∧
      statusCodeLoop r 0 0 statusWeights = some (statusCodes.getD i 0) ∧
      randomStatusCodeOf r = statusCodes.getD i 0 ∧
      r < statusThresholds.getD i 0 ∧
      ∀ j, j < i → statusThresholds.getD j 0 ≤ r) ∧
    statusThresholds = (List.scanl (· + ·) 0 statusWeights).tail ∧
    statusCodes.map statusCodeCount = [70, 10, 5, 5, 2, 2, 2, 2, 1, 1] ∧
    (∀ w, (randomStatusCode w).1 = randomStatusCodeOf (w.ints w.pos % 100)) := by
  refine ⟨?_, by decide, by decide, fun w => rfl⟩
  intro r hr
  have key : ∀ r, r < 100 → ∃ i, i < 10 ∧
      statusCodeLoop r 0 0 statusWeights = some (statusCodes.getD i 0) ∧
      randomStatusCodeOf r = statusCodes.getD i 0 ∧
      r < statusThresholds.getD i 0 ∧
      ∀ j, j < i → statusThresholds.getD j 0 ≤ r := by
    decide
  exact key r hr

/-- Witness of C2 at the draw r = 91: the loop returns at index 4 (code 401). -/
theorem randomStatusCode_distribution_witness :
    91 < 100 ∧ ∃ i, i < 10 ∧
      statusCodeLoop 91 0 0 statusWeights = some (statusCodes.getD i 0) ∧
      randomStatusCodeOf 91 = statusCodes.getD i 0 ∧
      91 < statusThresholds.getD i 0 ∧
      ∀ j, j < i → statusThresholds.getD j 0 ≤ 91 :=
  ⟨by decide, randomStatusCode_distribution.1 91 (by decide)⟩

/-- C3: for a draw r in [0,100), `randomTransactionStatus` returns "success" iff r < 80,
"failed" iff 80 ≤ r < 90 and "pending" iff 90 ≤ r < 100; of the 100 draws 80 give
success, 10 failed and 10 pending; no other value is ever returned. -/
theorem randomTransactionStatus_distribution :
    (∀ r, r < 100 →
      (randomTransactionStatusOf r = "success" ↔ r < 80) ∧
      (randomTransactionStatusOf r = "failed" ↔ 80 ≤ r ∧ r < 90) ∧
      (randomTransactionStatusOf r = "pending" ↔ 90 ≤ r ∧ r < 100)) ∧
    transactionStatuses.map transactionStatusCount = [80, 10, 10] ∧
    (∀ r, randomTransactionStatusOf r ∈ ["success", "failed", "pending"]) ∧
    (∀ w, (randomTransactionStatus w).1 = randomTransactionStatusOf (w.ints w.pos % 100)) := by
  refine ⟨?_, by decide, ?_, fun w => rfl⟩
  · intro r hr
    unfold randomTransactionStatusOf
    simp only [transactionWeights, transactionStatuses, List.getD_cons_zero,
      List.getD_cons_succ]
    split_ifs with h1 h2
    · refine ⟨by simp; omega, ?_, ?_⟩
      · constructor
        · intro h; exact absurd h (by decide)
        · intro h; omega
      · constructor
        · intro h; exact absurd h (by decide)
        · intro h; omega
    · refine ⟨?_, by simp; omega, ?_⟩
      · constructor
        · intro h; exact absurd h (by decide)
        · intro h; omega
      · constructor
        · intro h; exact absurd h (by decide)
        · intro h; omega
    · refine ⟨?_, ?_, by simp; omega⟩
      · constructor
        · intro h; exact absurd h (by decide)
        · intro h; omega
      · constructor
        · intro h; exact absurd h (by decide)
        · intro h; omega
  · intro r
    unfold randomTransactionStatusOf
    simp only [transactionStatuses, List.getD_cons_zero, List.getD_cons_succ]
    split_ifs <;> simp

/-- Witness of C3 at the draw r = 85 ("failed"). -/
theorem randomTransactionStatus_distribution_witness :
    85 < 100 ∧ randomTransactionStatusOf 85 = "failed" :=
  ⟨by decide, ((randomTransactionStatus_distribution.1 85 (by decide)).2.1).2
    ⟨by decide, by decide⟩⟩

/-- C8: `getFraudStatus s` is "high_risk" iff s > 70, "medium_risk" iff 40 < s ≤ 70 and
"low_risk" iff s ≤ 40; 70 maps to medium_risk and 40 to low_risk; every score falls in
exactly one of the three bands. -/
theorem getFraudStatus_bands (s : ℚ) :
    (getFraudStatus s = "high_risk" ↔ s > 70) ∧
    (getFraudStatus s = "medium_risk" ↔ 40 < s ∧ s ≤ 70) ∧
    (getFraudStatus s = "low_risk" ↔ s ≤ 40) ∧
    getFraudStatus 70 = "medium_risk" ∧
    getFraudStatus 40 = "low_risk" ∧
    (getFraudStatus s = "high_risk" ∨ getFraudStatus s = "medium_risk" ∨
      getFraudStatus s = "low_risk") ∧
    ("high_risk" ≠ "medium_risk" ∧ "high_risk" ≠ "low_risk" ∧ "medium_risk" ≠ "low_risk") := by
  have e70 : getFraudStatus 70 = "medium_risk" := by
    unfold getFraudStatus; norm_num
  have e40 : getFraudStatus 40 = "low_risk" := by
    unfold getFraudStatus; norm_num
  refine ⟨?_, ?_, ?_, e70, e40, ?_, by decide, by decide, by decide⟩
  all_goals unfold getFraudStatus
  · split_ifs with h1 h2
    · simp [h1]
    · exact ⟨fun h => absurd h (by decide), fun h => absurd h h1⟩
    · exact ⟨fun h => absurd h (by decide), fun h => absurd h h1⟩
  · split_ifs with h1 h2
    · exact ⟨fun h => absurd h (by decide), fun h => absurd h1 (not_lt.mpr h.2)⟩
    · exact ⟨fun _ => ⟨h2, not_lt.mp h1⟩, fun _ => rfl⟩
    · exact ⟨fun h => absurd h (by decide), fun h => absurd h.1 h2⟩
  · split_ifs with h1 h2
    · refine ⟨fun h => absurd h (by decide), fun h => absurd h1 (not_lt.mpr ?_)⟩
      linarith
    · exact ⟨fun h => absurd h (by decide), fun h => absurd h2 (not_lt.mpr h)⟩
    · exact ⟨fun _ => not_lt.mp h2, fun _ => rfl⟩
  · split_ifs <;> simp

/-- What `generateAPIRequestLogsWith` adds to the sink: one record, whose severity is
decided by the status code alone. -/
theorem generateAPIRequestLogsWith_out (statusCode : Int) (w : World) :
    ∃ rec, (generateAPIRequestLogsWith statusCode w).2.out = w.out ++ [rec] ∧
      rec.get "event_type" = some (.str "api_request") ∧
      rec.get "status_code" = some (.int statusCode) ∧
      (rec.level = .error ↔ statusCode ≥ 500) ∧
      (rec.level = .warning ↔ 400 ≤ statusCode ∧ statusCode ≤ 499) ∧
      (rec.level = .info ↔ statusCode < 400) := by
  unfold generateAPIRequestLogsWith
  simp only [Gen.bind_apply]
  split_ifs with h1 h2
  · refine ⟨_, rfl, rfl, rfl, ?_, ?_, ?_⟩
    · simp [h1]
    · simp; omega
    · simp; omega
  · refine ⟨_, rfl, rfl, rfl, ?_, ?_, ?_⟩
    · simp; omega
    · simp; omega
    · simp; omega
  · refine ⟨_, rfl, rfl, rfl, ?_, ?_, ?_⟩
    · simp; omega
    · simp; omega
    · simp; omega

/-- C4: the API-request scenario emits exactly one record, at error severity iff
status ≥ 500, at warning severity iff 400 ≤ status ≤ 499 and at info severity otherwise,
for every status code; with the code drawn by `randomStatusCode`, the codes 500, 502, 503
give error, 400, 401, 403, 404 give warning and 200, 201, 204 give info. -/
theorem apiRequest_severity :
    (∀ (statusCode : Int) (w : World), ∃ rec,
      emitted (generateAPIRequestLogsWith statusCode) w = [rec] ∧
      rec.get "event_type" = some (.str "api_request") ∧
      rec.get "status_code" = some (.int statusCode) ∧
      (rec.level = .error ↔ statusCode ≥ 500) ∧
      (rec.level = .warning ↔ 400 ≤ statusCode ∧ statusCode ≤ 499) ∧
      (rec.level = .info ↔ ¬ statusCode ≥ 500 ∧ ¬ (400 ≤ statusCode ∧ statusCode ≤ 499))) ∧
    (∀ w : World, ∃ rec code,
      emitted generateAPIRequestLogs w = [rec] ∧
      code = randomStatusCodeOf (w.ints w.pos % 100) ∧
      rec.get "status_code" = some (.int code) ∧
      (code ∈ [500, 502, 503] → rec.level = .error) ∧
      (code ∈ [400, 401, 403, 404] → rec.level = .warning) ∧
      (code ∈ [200, 201, 204] → rec.level = .info)) ∧
    (∀ r, randomStatusCodeOf r ∈ statusCodes) ∧
    (∀ w : World,
      (emitted (generateAPIRequestLogsWith 503) w).map Record.level = [.error] ∧
      (emitted (generateAPIRequestLogsWith 404) w).map Record.level = [.warning] ∧
      (emitted (generateAPIRequestLogsWith 200) w).map Record.level = [.info]) := by
  refine ⟨?_, ?_, ?_, ?_⟩
  · intro statusCode w
    obtain ⟨rec, hout, h1, h2, h3, h4, h5⟩ := generateAPIRequestLogsWith_out statusCode w
    refine ⟨rec, emitted_of_out hout, h1, h2, h3, h4, ?_⟩
    rw [h5]; omega
  · intro w
    obtain ⟨rec, hout, _, h2, h3, h4, h5⟩ :=
      generateAPIRequestLogsWith_out (randomStatusCode w).1 (randomStatusCode w).2
    have hout2 : (generateAPIRequestLogs w).2.out = w.out ++ [rec] := hout
    have hcode : (randomStatusCode w).1 = randomStatusCodeOf (w.ints w.pos % 100) := rfl
    rw [hcode] at h2 h3 h4 h5
    refine ⟨rec, _, emitted_of_out hout2, rfl, h2, ?_, ?_, ?_⟩
    · intro hc
      refine h3.2 ?_
      simp only [List.mem_cons, List.mem_singleton, List.not_mem_nil, or_false] at hc
      rcases hc with hc | hc | hc <;> rw [hc] <;> decide
    · intro hc
      refine h4.2 ?_
      simp only [List.mem_cons, List.mem_singleton, List.not_mem_nil, or_false] at hc
      rcases hc with hc | hc | hc | hc <;> rw [hc] <;> decide
    · intro hc
      refine h5.2 ?_
      simp only [List.mem_cons, List.mem_singleton, List.not_mem_nil, or_false] at hc
      rcases hc with hc | hc | hc <;> rw [hc] <;> decide
  · intro r
    by_cases hr : r < 100
    · have key : ∀ r, r < 100 → randomStatusCodeOf r ∈ statusCodes := by decide
      exact key r hr
    · have hloop : ∀ (ws : List Nat) (i c : Nat), c + ws.sum ≤ r →
          statusCodeLoop r i c ws = none := by
        intro ws
        induction ws with
        | nil => intro i c _; rfl
        | cons x xs ih =>
          intro i c hc
          simp only [List.sum_cons] at hc
          unfold statusCodeLoop
          rw [if_neg (by omega)]
          exact ih (i + 1) (c + x) (by omega)
      have hsum : statusWeights.sum = 100 := by decide
      have hnone : statusCodeLoop r 0 0 statusWeights = none :=
        hloop statusWeights 0 0 (by omega)
      unfold randomStatusCodeOf
      rw [hnone]
      decide
  · intro w
    refine ⟨?_, ?_, ?_⟩
    · obtain ⟨rec, hout, _, _, h3, _, _⟩ := generateAPIRequestLogsWith_out 503 w
      rw [emitted_of_out hout, List.map_singleton, h3.2 (by decide)]
    · obtain ⟨rec, hout, _, _, _, h4, _⟩ := generateAPIRequestLogsWith_out 404 w
      rw [emitted_of_out hout, List.map_singleton, h4.2 (by decide)]
    · obtain ⟨rec, hout, _, _, _, _, h5⟩ := generateAPIRequestLogsWith_out 200 w
      rw [emitted_of_out hout, List.map_singleton, h5.2 (by decide)]

/-- Witness of C4: a draw of 99 gives status 503 and an error record. -/
theorem apiRequest_severity_witness :
    ∃ rec code,
      emitted generateAPIRequestLogs ⟨0, fun _ => 99, fun _ => 0, []⟩ = [rec] ∧
      code = randomStatusCodeOf 99 ∧
      rec.get "status_code" = some (.int code) ∧
      (code ∈ [500, 502, 503] → rec.level = .error) ∧
      (code ∈ [400, 401, 403, 404] → rec.level = .warning) ∧
      (code ∈ [200, 201, 204] → rec.level = .info) :=
  apiRequest_severity.2.1 ⟨0, fun _ => 99, fun _ => 0, []⟩

/-- What `generatePaymentProcessingLogsWith` adds to the sink: the payment record, then
the fraud alert exactly when the score exceeds 80. -/
theorem generatePaymentProcessingLogsWith_out (amount s : ℚ) (w : World) :
    ∃ payment alert : Record,
      (generatePaymentProcessingLogsWith amount s w).2.out =
        w.out ++ (if s > 80 then [payment, alert] else [payment]) ∧
      payment.level = .info ∧
      payment.get "event_type" = some (.str "payment_processing") ∧
      payment.get "fraud_score" = some (.float s) ∧
      payment.get "fraud_status" = some (.str (getFraudStatus s)) ∧
      alert.level = .warning ∧
      alert.get "event_type" = some (.str "fraud_alert") ∧
      alert.get "fraud_score" = some (.float s) ∧
      alert.get "alert_level" = some (.str "high") ∧
      alert.get "action_taken" = some (.str "blocked") := by
  by_cases hs : s > 80
  · unfold generatePaymentProcessingLogsWith
    simp only [Gen.bind_apply, if_pos hs]
    refine ⟨?payment, ?alert, ?out, ?props⟩
    case out => exact List.append_assoc w.out [_] [_]
    case props => exact ⟨rfl, rfl, rfl, rfl, rfl, rfl, rfl, rfl, rfl⟩
  · unfold generatePaymentProcessingLogsWith
    simp only [Gen.bind_apply, if_neg hs]
    refine ⟨?payment2, ⟨.warning, "", [("event_type", .str "fraud_alert"),
      ("fraud_score", .float s), ("alert_level", .str "high"),
      ("action_taken", .str "blocked")]⟩, ?out2, ?props2⟩
    case out2 => exact rfl
    case props2 => exact ⟨rfl, rfl, rfl, rfl, rfl, rfl, rfl, rfl, rfl⟩

theorem generatePaymentProcessingLogs_eq (fl : ℚ → ℚ) (w : World) :
    emitted (generatePaymentProcessingLogs fl) w =
      emitted (generatePaymentProcessingLogsWith (fl (w.floats w.pos * 1000))
        (fl (w.floats (w.pos + 1) * 100))) { w with pos := w.pos + 1 + 1 } := rfl

theorem emitted_paymentWith (amount s : ℚ) (w : World) :
    ∃ payment alert : Record,
      emitted (generatePaymentProcessingLogsWith amount s) w =
        (if s > 80 then [payment, alert] else [payment]) ∧
      payment.level = .info ∧
      payment.get "event_type" = some (.str "payment_processing") ∧
      payment.get "fraud_score" = some (.float s) ∧
      payment.get "fraud_status" = some (.str (getFraudStatus s)) ∧
      alert.level = .warning ∧
      alert.get "event_type" = some (.str "fraud_alert") ∧
      alert.get "fraud_score" = some (.float s) ∧
      alert.get "alert_level" = some (.str "high") ∧
      alert.get "action_taken" = some (.str "blocked") := by
  obtain ⟨payment, alert, hout, h⟩ := generatePaymentProcessingLogsWith_out amount s w
  exact ⟨payment, alert, emitted_of_out hout, h⟩

/-- C5: for every fraud score s the payment-processing scenario emits one
payment_processing record at info severity, and it emits in addition a fraud_alert record,
at warning severity with alert_level "high" and action_taken "blocked", iff s > 80; a
score of 85 yields the alert, scores of 50 and of exactly 80 do not. -/
theorem paymentProcessing_fraud_alert :
    (∀ (amount s : ℚ) (w : World), ∃ payment alert : Record,
      emitted (generatePaymentProcessingLogsWith amount s) w =
        (if s > 80 then [payment, alert] else [payment]) ∧
      payment.level = .info ∧
      payment.get "event_type" = some (.str "payment_processing") ∧
      payment.get "fraud_score" = some (.float s) ∧
      alert.level = .warning ∧
      alert.get "event_type" = some (.str "fraud_alert") ∧
      alert.get "alert_level" = some (.str "high") ∧
      alert.get "action_taken" = some (.str "blocked")) ∧
    (∀ (amount s : ℚ) (w : World),
      (∃ rec ∈ emitted (generatePaymentProcessingLogsWith amount s) w,
        rec.get "event_type" = some (.str "fraud_alert")) ↔ s > 80) ∧
    (∀ (fl : ℚ → ℚ) (w : World),
      emitted (generatePaymentProcessingLogs fl) w =
        emitted (generatePaymentProcessingLogsWith (fl (w.floats w.pos * 1000))
          (fl (w.floats (w.pos + 1) * 100))) { w with pos := w.pos + 1 + 1 }) ∧
    (∀ (fl : ℚ → ℚ) (w : World),
      (∃ rec ∈ emitted (generatePaymentProcessingLogs fl) w,
        rec.get "event_type" = some (.str "fraud_alert")) ↔
      fl (w.floats (w.pos + 1) * 100) > 80) ∧
    (∀ (amount : ℚ) (w : World),
      (emitted (generatePaymentProcessingLogsWith amount 85) w).map
          (fun rec => (rec.level, rec.get "event_type")) =
        [(.info, some (.str "payment_processing")), (.warning, some (.str "fraud_alert"))] ∧
      (emitted (generatePaymentProcessingLogsWith amount 50) w).map
          (fun rec => (rec.level, rec.get "event_type")) =
        [(.info, some (.str "payment_processing"))] ∧
      (emitted (generatePaymentProcessingLogsWith amount 80) w).map
          (fun rec => (rec.level, rec.get "event_type")) =
        [(.info, some (.str "payment_processing"))]) := by
  have hiff : ∀ (amount s : ℚ) (w : World),
      (∃ rec ∈ emitted (generatePaymentProcessingLogsWith amount s) w,
        rec.get "event_type" = some (.str "fraud_alert")) ↔ s > 80 := ?_
  · refine ⟨?_, hiff, generatePaymentProcessingLogs_eq, ?_, ?_⟩
    · intro amount s w
      obtain ⟨payment, alert, hem, h1, h2, h3, _, h5, h6, _, h8, h9⟩ :=
        emitted_paymentWith amount s w
      exact ⟨payment, alert, hem, h1, h2, h3, h5, h6, h8, h9⟩
    · intro fl w
      rw [generatePaymentProcessingLogs_eq]
      exact hiff _ _ _
    · intro amount w
      refine ⟨?_, ?_, ?_⟩
      · obtain ⟨payment, alert, hem, h1, h2, _, _, h5, h6, _, _, _⟩ :=
          emitted_paymentWith amount 85 w
        rw [hem, if_pos (by norm_num)]
        simp [h1, h2, h5, h6]
      · obtain ⟨payment, alert, hem, h1, h2, _, _, _, _, _, _, _⟩ :=
          emitted_paymentWith amount 50 w
        rw [hem, if_neg (by norm_num)]
        simp [h1, h2]
      · obtain ⟨payment, alert, hem, h1, h2, _, _, _, _, _, _, _⟩ :=
          emitted_paymentWith amount 80 w
        rw [hem, if_neg (by norm_num)]
        simp [h1, h2]
  · intro amount s w
    obtain ⟨payment, alert, hem, _, h2, _, _, _, h6, _, _, _⟩ :=
      emitted_paymentWith amount s w
    rw [hem]
    constructor
    · rintro ⟨rec, hrec, hev⟩
      by_contra hs
      rw [if_neg hs, List.mem_singleton] at hrec
      subst hrec
      rw [h2] at hev
      exact absurd hev (by decide)
    · intro hs
      rw [if_pos hs]
      exact ⟨alert, by simp, h6⟩

/-- Witness of C5 at the score 85: a fraud_alert record is emitted. -/
theorem paymentProcessing_fraud_alert_witness :
    (85 : ℚ) > 80 ∧
    ∃ rec ∈ emitted (generatePaymentProcessingLogsWith 10 85)
        ⟨0, fun _ => 0, fun _ => 0, []⟩,
      rec.get "event_type" = some (.str "fraud_alert") :=
  ⟨by norm_num,
    (paymentProcessing_fraud_alert.2.1 10 85 ⟨0, fun _ => 0, fun _ => 0, []⟩).2
      (by norm_num)⟩

/-- C10: whenever the payment-processing scenario emits a fraud_alert record, the
payment_processing record of the same invocation has fraud_status "high_risk" and the same
fraud_score as the alert; the converse fails, a score in (70, 80] is labelled high_risk
and no alert is emitted. -/
theorem payment_alert_consistent :
    (∀ (amount s : ℚ) (w : World),
      ∀ alert ∈ emitted (generatePaymentProcessingLogsWith amount s) w,
      alert.get "event_type" = some (.str "fraud_alert") →
      ∃ payment : Record,
        emitted (generatePaymentProcessingLogsWith amount s) w = [payment, alert] ∧
        payment.get "event_type" = some (.str "payment_processing") ∧
        payment.get "fraud_status" = some (.str "high_risk") ∧
        payment.get "fraud_score" = some (.float s) ∧
        alert.get "fraud_score" = payment.get "fraud_score") ∧
    (∀ (fl : ℚ → ℚ) (w : World),
      ∀ alert ∈ emitted (generatePaymentProcessingLogs fl) w,
      alert.get "event_type" = some (.str "fraud_alert") →
      ∃ payment : Record,
        emitted (generatePaymentProcessingLogs fl) w = [payment, alert] ∧
        payment.get "event_type" = some (.str "payment_processing") ∧
        payment.get "fraud_status" = some (.str "high_risk") ∧
        alert.get "fraud_score" = payment.get "fraud_score") ∧
    (∀ (amount s : ℚ) (w : World), 70 < s → s ≤ 80 →
      (∃ payment : Record,
        emitted (generatePaymentProcessingLogsWith amount s) w = [payment] ∧
        payment.get "event_type" = some (.str "payment_processing") ∧
        payment.get "fraud_status" = some (.str "high_risk")) ∧
      ∀ rec ∈ emitted (generatePaymentProcessingLogsWith amount s) w,
        rec.get "event_type" ≠ some (.str "fraud_alert")) := by
  have main : ∀ (amount s : ℚ) (w : World),
      ∀ alert ∈ emitted (generatePaymentProcessingLogsWith amount s) w,
      alert.get "event_type" = some (.str "fraud_alert") →
      ∃ payment : Record,
        emitted (generatePaymentProcessingLogsWith amount s) w = [payment, alert] ∧
        payment.get "event_type" = some (.str "payment_processing") ∧
        payment.get "fraud_status" = some (.str "high_risk") ∧
        payment.get "fraud_score" = some (.float s) ∧
        alert.get "fraud_score" = payment.get "fraud_score" := by
    intro amount s w alert hmem hev
    obtain ⟨payment, alert2, hem, _, h2, h3, h4, _, _, h7, _, _⟩ :=
      emitted_paymentWith amount s w
    have hne : alert ≠ payment := by
      intro h
      rw [h, h2] at hev
      exact absurd hev (by decide)
    by_cases hs : s > 80
    · rw [hem, if_pos hs] at hmem
      have halert : alert = alert2 := by
        rcases List.mem_cons.1 hmem with h | h
        · exact absurd h hne
        · exact List.mem_singleton.1 h
      subst halert
      refine ⟨payment, ?_, h2, ?_, h3, ?_⟩
      · rw [hem, if_pos hs]
      · rw [h4]
        unfold getFraudStatus
        rw [if_pos (by linarith)]
      · rw [h7, h3]
    · rw [hem, if_neg hs, List.mem_singleton] at hmem
      exact absurd hmem hne
  refine ⟨main, ?_, ?_⟩
  · intro fl w alert hmem hev
    rw [generatePaymentProcessingLogs_eq] at hmem ⊢
    obtain ⟨payment, h1, h2, h3, _, h5⟩ := main _ _ _ alert hmem hev
    exact ⟨payment, h1, h2, h3, h5⟩
  · intro amount s w h70 h80
    obtain ⟨payment, _, hem, _, h2, _, h4, _, _, _, _, _⟩ :=
      emitted_paymentWith amount s w
    have hone : emitted (generatePaymentProcessingLogsWith amount s) w = [payment] := by
      rw [hem, if_neg (not_lt.mpr h80)]
    refine ⟨⟨payment, hone, h2, ?_⟩, ?_⟩
    · rw [h4]
      unfold getFraudStatus
      rw [if_pos h70]
    · intro rec hrec
      rw [hone, List.mem_singleton] at hrec
      rw [hrec, h2]
      decide

/-- Witness of C10 at the score 75: one record, labelled high_risk, no alert. -/
theorem payment_alert_consistent_witness :
    (70 : ℚ) < 75 ∧ (75 : ℚ) ≤ 80 ∧ ∃ payment : Record,
      emitted (generatePaymentProcessingLogsWith 10 75) ⟨0, fun _ => 0, fun _ => 0, []⟩ =
        [payment] ∧
      payment.get "event_type" = some (.str "payment_processing") ∧
      payment.get "fraud_status" = some (.str "high_risk") :=
  ⟨by norm_num, by norm_num,
    (payment_alert_consistent.2.2 10 75 ⟨0, fun _ => 0, fun _ => 0, []⟩ (by norm_num)
      (by norm_num)).1⟩

theorem randomBytes_spec (n : Nat) (w : World) :
    (randomBytes n w).1.length = n ∧ ∀ c ∈ (randomBytes n w).1, c ∈ charset.data := by
  induction n generalizing w with
  | zero => exact ⟨rfl, fun c hc => absurd hc (List.not_mem_nil c)⟩
  | succ k ih =>
    have hstep : (randomBytes (k + 1) w).1 =
        charset.data.getD (w.ints w.pos % charset.length) 'A' ::
          (randomBytes k { w with pos := w.pos + 1 }).1 := rfl
    have hlen : charset.length = charset.data.length := rfl
    have hpos : 0 < charset.data.length := by decide
    have hidx : w.ints w.pos % charset.length < charset.data.length := by
      rw [hlen]; exact Nat.mod_lt _ hpos
    rw [hstep]
    refine ⟨by rw [List.length_cons, (ih _).1], ?_⟩
    intro c hc
    rcases List.mem_cons.1 hc with h | h
    · rw [h, List.getD_eq_getElem _ _ hidx]
      exact List.getElem_mem _
    · exact (ih _).2 c h

theorem randomString_isIdentifier (pfx : String) (n : Nat) (w : World) :
    IsIdentifier pfx n (randomString pfx n w).1 :=
  ⟨(randomBytes n w).1, rfl, (randomBytes_spec n w).1, (randomBytes_spec n w).2⟩


theorem utf8Len_of_charset (chars : List Char) (h : ∀ c ∈ chars, c ∈ charset.data) :
    String.utf8Len chars = chars.length := by
  induction chars with
  | nil => rfl
  | cons c cs ih =>
    have hc : ∀ c ∈ charset.data, c.utf8Size = 1 := by decide
    rw [String.utf8Len_cons, List.length_cons, ih (fun d hd => h d (List.mem_cons_of_mem c hd)),
      hc c (h c (List.mem_cons_self c cs))]

/-- C6: `randomString(p, n)` is `p`, then "_", then exactly `n` characters of the
36-character set A-Z0-9, so its length (in characters and in bytes) is
`len(p) + 1 + n`; the order, transaction, merchant, user, session, payment and api-key
identifiers have prefixes ORD, TXN, MER, USR, SES, PAY, API and random parts of 10, 12,
8, 8, 16, 12, 20 characters. -/
theorem randomString_format (pfx : String) (n : Nat) (w : World) :
    IsIdentifier pfx n (randomString pfx n w).1 ∧
    (randomString pfx n w).1.length = pfx.length + 1 + n ∧
    (randomString pfx n w).1.utf8ByteSize = pfx.utf8ByteSize + 1 + n ∧
    charset.data = (List.range 26).map (fun i => Char.ofNat (65 + i)) ++
      (List.range 10).map (fun i => Char.ofNat (48 + i)) ∧
    charset.data.length = 36 ∧
    (∀ c ∈ charset.data, c.isUpper = true ∨ c.isDigit = true) ∧
    IsIdentifier "ORD" 10 (generateOrderID w).1 ∧
    IsIdentifier "TXN" 12 (generateTransactionID w).1 ∧
    IsIdentifier "MER" 8 (generateMerchantID w).1 ∧
    IsIdentifier "USR" 8 (generateUserID w).1 ∧
    IsIdentifier "SES" 16 (generateSessionID w).1 ∧
    IsIdentifier "PAY" 12 (generatePaymentID w).1 ∧
    IsIdentifier "API" 20 (generateAPIKey w).1 := by
  refine ⟨randomString_isIdentifier pfx n w, ?_, ?_, by decide, by decide, by decide,
    randomString_isIdentifier _ _ w, randomString_isIdentifier _ _ w,
    randomString_isIdentifier _ _ w, randomString_isIdentifier _ _ w,
    randomString_isIdentifier _ _ w, randomString_isIdentifier _ _ w,
    randomString_isIdentifier _ _ w⟩
  · obtain ⟨chars, h, hl, _⟩ := randomString_isIdentifier pfx n w
    have h1 : "_".length = 1 := rfl
    have h2 : (String.mk chars).length = n := hl
    rw [h, String.length_append, String.length_append, h1, h2]
  · obtain ⟨chars, h, hl, hc⟩ := randomString_isIdentifier pfx n w
    have h1 : "_".utf8ByteSize = 1 := rfl
    have happ : ∀ a b : String, (a ++ b).utf8ByteSize = a.utf8ByteSize + b.utf8ByteSize := by
      intro a b
      show String.utf8Len (a.data ++ b.data) = String.utf8Len a.data + String.utf8Len b.data
      exact String.utf8Len_append _ _
    have h2 : (String.mk chars).utf8ByteSize = n := by
      rw [String.utf8ByteSize_mk, utf8Len_of_charset chars hc, hl]
    rw [h, happ, happ, h1, h2]

/-! ### Float64 thresholds -/

/-- Above a float64 `K / 2^53` of `[1/2, 1)` the next float64 is `(K + 1) / 2^53`. -/
theorem float64_succ (e : ℚ) (hf : IsFloat64 e) (K : ℕ) (hK : 2 ^ 52 ≤ K)
    (hlt : (K : ℚ) / 2 ^ 53 < e) : ((K : ℚ) + 1) / 2 ^ 53 ≤ e := by
  obtain ⟨hden, hnum⟩ := hf
  have hpos : 0 < e := lt_of_le_of_lt (by positivity) hlt
  have hnumpos : 0 < e.num := Rat.num_pos.2 hpos
  obtain ⟨j, hj, hdj⟩ := (Nat.dvd_prime_pow Nat.prime_two).1 hden
  obtain ⟨a, ha⟩ : ∃ a : ℕ, e.num = (a : ℤ) := ⟨e.num.toNat, (Int.toNat_of_nonneg hnumpos.le).symm⟩
  have ha53 : a < 2 ^ 53 := by
    rw [ha, Int.natAbs_ofNat] at hnum
    exact hnum
  have he : e = (a : ℚ) / (2 : ℚ) ^ j := by
    have h := (Rat.num_div_den e).symm
    rw [ha, hdj] at h
    rw [h]
    push_cast
    rfl
  have hjpos : (0 : ℚ) < (2 : ℚ) ^ j := by positivity
  have hhalf : (1 : ℚ) / 2 < e := by
    refine lt_of_le_of_lt ?_ hlt
    rw [div_le_div_iff₀ (by norm_num) (by positivity)]
    have : ((2 ^ 52 : ℕ) : ℚ) ≤ (K : ℚ) := by exact_mod_cast hK
    push_cast at this
    linarith
  have h2a : 2 ^ j < 2 * a := by
    rw [he, div_lt_div_iff₀ (by norm_num) hjpos] at hhalf
    have : ((2 ^ j : ℕ) : ℚ) < ((2 * a : ℕ) : ℚ) := by
      push_cast
      linarith
    exact_mod_cast this
  have hj53 : j ≤ 53 := by
    have h54 : 2 ^ j < 2 ^ 54 := by omega
    have := (Nat.pow_lt_pow_iff_right (by norm_num : 1 < 2)).1 h54
    omega
  obtain ⟨t, ht⟩ : ∃ t : ℕ, 2 ^ 53 = 2 ^ j * t := ⟨2 ^ (53 - j), by
    rw [← pow_add]; congr 1; omega⟩
  have htq : (2 : ℚ) ^ 53 = (2 : ℚ) ^ j * (t : ℚ) := by exact_mod_cast ht
  have hmul : e * (2 : ℚ) ^ 53 = ((a * t : ℕ) : ℚ) := by
    rw [he, htq]
    push_cast
    field_simp
    ring
  have h53pos : (0 : ℚ) < (2 : ℚ) ^ 53 := by positivity
  have hKlt : K < a * t := by
    have : (K : ℚ) < ((a * t : ℕ) : ℚ) := by
      rw [← hmul]
      exact (div_lt_iff₀ h53pos).1 hlt
    exact_mod_cast this
  rw [div_le_iff₀ h53pos, hmul]
  exact_mod_cast hKlt

theorem gt_const085_iff (e : ℚ) (hf : IsFloat64 e) : e > const085 ↔ e > 85 / 100 := by
  constructor
  · intro h
    have h1 := float64_succ e hf 7656119366529843 (by norm_num)
      (by unfold const085 at h; norm_num at h ⊢; exact h)
    norm_num at h1 ⊢
    linarith
  · intro h
    unfold const085
    norm_num at h ⊢
    linarith

theorem gt_const070_iff (e : ℚ) (hf : IsFloat64 e) : e > const070 ↔ e > 70 / 100 := by
  constructor
  · intro h
    have h1 := float64_succ e hf 6305039478318694 (by norm_num)
      (by unfold const070 at h; norm_num at h ⊢; exact h)
    norm_num at h1 ⊢
    linarith
  · intro h
    unfold const070
    norm_num at h ⊢
    linarith


/-- What `generateErrorLogsWith` adds to the sink: exactly one record, chosen by the two
comparisons of `errorRate`. -/
theorem generateErrorLogsWith_out (errorType : String) (e : ℚ) (w : World) :
    ∃ rec : Record, (generateErrorLogsWith errorType e w).2.out = w.out ++ [rec] ∧
      (e > const085 → rec.get "event_type" = some (.str "error") ∧ rec.level = .error ∧
        rec.msg = "Critical error occurred") ∧
      (¬ e > const085 → e > const070 →
        rec.get "event_type" = some (.str "warning") ∧ rec.level = .warning ∧
        rec.msg = "Rate limit threshold approaching") ∧
      (¬ e > const085 → ¬ e > const070 →
        rec.get "event_type" = some (.str "info") ∧ rec.level = .info ∧
        rec.msg = "Service operating normally") := by
  by_cases h1 : e > const085
  · unfold generateErrorLogsWith
    simp only [Gen.bind_apply, if_pos h1]
    refine ⟨?rec1, ?out1, ?props1⟩
    case out1 => exact rfl
    case props1 =>
      exact ⟨fun _ => ⟨rfl, rfl, rfl⟩, fun h => absurd h1 h, fun h => absurd h1 h⟩
  · by_cases h2 : e > const070
    · unfold generateErrorLogsWith
      simp only [Gen.bind_apply, if_neg h1, if_pos h2]
      refine ⟨?rec2, ?out2, ?props2⟩
      case out2 => exact rfl
      case props2 =>
        exact ⟨fun h => absurd h h1, fun _ _ => ⟨rfl, rfl, rfl⟩, fun _ h => absurd h2 h⟩
    · unfold generateErrorLogsWith
      simp only [Gen.bind_apply, if_neg h1, if_neg h2]
      refine ⟨?rec3, ?out3, ?props3⟩
      case out3 => exact rfl
      case props3 =>
        exact ⟨fun h => absurd h h1, fun _ h => absurd h h2, fun _ _ => ⟨rfl, rfl, rfl⟩⟩

/-- C9: for every float64 draw e, `generateErrorLogs` emits exactly one record: the
critical-error record (event_type "error", error severity) iff e > 0.85, the rate-limit
record (event_type "warning", warning severity) iff 0.70 < e ≤ 0.85, the normal-operation
record (event_type "info", info severity) iff e ≤ 0.70; the three intervals of [0,1) have
lengths 0.15, 0.15 and 0.70. -/
theorem generateErrorLogs_branches :
    (∀ (errorType : String) (e : ℚ) (w : World), IsFloat64 e →
      ∃ rec : Record, emitted (generateErrorLogsWith errorType e) w = [rec] ∧
        (rec.get "event_type" = some (.str "error") ∧ rec.level = .error ∧
          rec.msg = "Critical error occurred" ↔ e > 85 / 100) ∧
        (rec.get "event_type" = some (.str "warning") ∧ rec.level = .warning ∧
          rec.msg = "Rate limit threshold approaching" ↔ 70 / 100 < e ∧ e ≤ 85 / 100) ∧
        (rec.get "event_type" = some (.str "info") ∧ rec.level = .info ∧
          rec.msg = "Service operating normally" ↔ e ≤ 70 / 100)) ∧
    (∀ w : World,
      emitted generateErrorLogs w =
        emitted (generateErrorLogsWith
          (["validation_error", "database_error", "api_error", "timeout_error",
            "authentication_error"].getD (w.ints w.pos % 5) "")
          (w.floats (w.pos + 1))) { w with pos := w.pos + 1 + 1 }) ∧
    (∀ w : World, IsFloat64 (w.floats (w.pos + 1)) →
      ∃ rec : Record, emitted generateErrorLogs w = [rec] ∧
        (rec.get "event_type" = some (.str "error") ∧ rec.level = .error ∧
          rec.msg = "Critical error occurred" ↔ w.floats (w.pos + 1) > 85 / 100) ∧
        (rec.get "event_type" = some (.str "warning") ∧ rec.level = .warning ∧
          rec.msg = "Rate limit threshold approaching" ↔
            70 / 100 < w.floats (w.pos + 1) ∧ w.floats (w.pos + 1) ≤ 85 / 100) ∧
        (rec.get "event_type" = some (.str "info") ∧ rec.level = .info ∧
          rec.msg = "Service operating normally" ↔ w.floats (w.pos + 1) ≤ 70 / 100)) ∧
    ((1 : ℚ) - 85 / 100 = 15 / 100 ∧ (85 : ℚ) / 100 - 70 / 100 = 15 / 100 ∧
      (70 : ℚ) / 100 - 0 = 70 / 100) := by
  have main : ∀ (errorType : String) (e : ℚ) (w : World), IsFloat64 e →
      ∃ rec : Record, emitted (generateErrorLogsWith errorType e) w = [rec] ∧
        (rec.get "event_type" = some (.str "error") ∧ rec.level = .error ∧
          rec.msg = "Critical error occurred" ↔ e > 85 / 100) ∧
        (rec.get "event_type" = some (.str "warning") ∧ rec.level = .warning ∧
          rec.msg = "Rate limit threshold approaching" ↔ 70 / 100 < e ∧ e ≤ 85 / 100) ∧
        (rec.get "event_type" = some (.str "info") ∧ rec.level = .info ∧
          rec.msg = "Service operating normally" ↔ e ≤ 70 / 100) := ?_
  · refine ⟨main, fun w => rfl, ?_, by norm_num, by norm_num, by norm_num⟩
    intro w hf
    exact main _ (w.floats (w.pos + 1)) { w with pos := w.pos + 1 + 1 } hf
  intro errorType e w hf
  obtain ⟨rec, hout, hA, hB, hC⟩ := generateErrorLogsWith_out errorType e w
  have hem := emitted_of_out hout
  have i85 := gt_const085_iff e hf
  have i70 := gt_const070_iff e hf
  refine ⟨rec, hem, ?_, ?_, ?_⟩
  · constructor
    · intro h
      by_contra hn
      have h1 : ¬ e > const085 := fun hc => hn (i85.1 hc)
      by_cases h2 : e > const070
      · have := (hB h1 h2).2.1
        rw [h.2.1] at this
        exact absurd this (by decide)
      · have := (hC h1 h2).2.1
        rw [h.2.1] at this
        exact absurd this (by decide)
    · intro h
      exact hA (i85.2 h)
  · constructor
    · intro h
      by_cases h1 : e > const085
      · have := (hA h1).2.1
        rw [h.2.1] at this
        exact absurd this (by decide)
      · by_cases h2 : e > const070
        · exact ⟨i70.1 h2, not_lt.1 (fun hc => h1 (i85.2 hc))⟩
        · have := (hC h1 h2).2.1
          rw [h.2.1] at this
          exact absurd this (by decide)
    · intro h
      exact hB (fun hc => absurd (i85.1 hc) (not_lt.2 h.2)) (i70.2 h.1)
  · constructor
    · intro h
      by_cases h1 : e > const085
      · have := (hA h1).2.1
        rw [h.2.1] at this
        exact absurd this (by decide)
      · by_cases h2 : e > const070
        · have := (hB h1 h2).2.1
          rw [h.2.1] at this
          exact absurd this (by decide)
        · exact not_lt.1 (fun hc => h2 (i70.2 hc))
    · intro h
      have h2 : ¬ e > const070 := fun hc => absurd (i70.1 hc) (not_lt.2 h)
      have h1 : ¬ e > const085 := by
        intro hc
        have := i85.1 hc
        have h3 : e ≤ 70 / 100 := h
        linarith
      exact hC h1 h2

/-- Witness of C9 at the draw e = 7/8: the critical-error record. -/
theorem generateErrorLogs_branches_witness :
    IsFloat64 (7 / 8) ∧ ∃ rec : Record,
      emitted (generateErrorLogsWith "api_error" (7 / 8)) ⟨0, fun _ => 0, fun _ => 0, []⟩ =
        [rec] ∧
      (rec.get "event_type" = some (.str "error") ∧ rec.level = .error ∧
        rec.msg = "Critical error occurred" ↔ (7 / 8 : ℚ) > 85 / 100) ∧
      (rec.get "event_type" = some (.str "warning") ∧ rec.level = .warning ∧
        rec.msg = "Rate limit threshold approaching" ↔
          70 / 100 < (7 / 8 : ℚ) ∧ (7 / 8 : ℚ) ≤ 85 / 100) ∧
      (rec.get "event_type" = some (.str "info") ∧ rec.level = .info ∧
        rec.msg = "Service operating normally" ↔ (7 / 8 : ℚ) ≤ 70 / 100) :=
  have hf : IsFloat64 (7 / 8) := by
    unfold IsFloat64
    norm_num
  ⟨hf, generateErrorLogs_branches.1 "api_error" (7 / 8) ⟨0, fun _ => 0, fun _ => 0, []⟩ hf⟩

/-! ### Record shapes -/

theorem wellShaped_one {full out : List Record} {r : Record}
    (h : full = out ++ [r]) (hr : r.wellShaped = true) :
    ∀ rec ∈ full.drop out.length, rec.wellShaped = true := by
  rw [h, List.drop_left]
  intro rec hrec
  rw [List.mem_singleton] at hrec
  rw [hrec]
  exact hr

theorem wellShaped_two {full out : List Record} {r₁ r₂ : Record}
    (h : full = out ++ [r₁] ++ [r₂]) (h₁ : r₁.wellShaped = true)
    (h₂ : r₂.wellShaped = true) :
    ∀ rec ∈ full.drop out.length, rec.wellShaped = true := by
  rw [h, List.append_assoc, List.drop_left]
  intro rec hrec
  simp only [List.singleton_append, List.mem_cons, List.mem_singleton, List.not_mem_nil,
    or_false] at hrec
  rcases hrec with h | h <;> rw [h] <;> assumption

theorem wellShaped_businessKPI (fl : ℚ → ℚ) (w : World) :
    ∀ rec ∈ emitted (generateBusinessKPILogs fl) w, rec.wellShaped = true :=
  wellShaped_two rfl rfl rfl

theorem wellShaped_transaction (fl : ℚ → ℚ) (w : World) :
    ∀ rec ∈ emitted (generateTransactionLogs fl) w, rec.wellShaped = true := by
  unfold emitted generateTransactionLogs
  simp only [Gen.bind_apply]
  split_ifs
  · exact wellShaped_one rfl rfl
  · exact wellShaped_one rfl rfl
  · exact wellShaped_one rfl rfl

theorem wellShaped_error (w : World) :
    ∀ rec ∈ emitted generateErrorLogs w, rec.wellShaped = true := by
  unfold emitted generateErrorLogs generateErrorLogsWith
  simp only [Gen.bind_apply]
  split_ifs
  · exact wellShaped_one rfl rfl
  · exact wellShaped_one rfl rfl
  · exact wellShaped_one rfl rfl

theorem wellShaped_performance (fl : ℚ → ℚ) (w : World) :
    ∀ rec ∈ emitted (generatePerformanceLogs fl) w, rec.wellShaped = true :=
  wellShaped_two rfl rfl rfl

theorem wellShaped_userActivity (w : World) :
    ∀ rec ∈ emitted generateUserActivityLogs w, rec.wellShaped = true :=
  wellShaped_one rfl rfl

theorem wellShaped_apiRequest (w : World) :
    ∀ rec ∈ emitted generateAPIRequestLogs w, rec.wellShaped = true := by
  unfold emitted generateAPIRequestLogs generateAPIRequestLogsWith
  simp only [Gen.bind_apply]
  split_ifs
  · exact wellShaped_one rfl rfl
  · exact wellShaped_one rfl rfl
  · exact wellShaped_one rfl rfl

theorem wellShaped_payment (fl : ℚ → ℚ) (w : World) :
    ∀ rec ∈ emitted (generatePaymentProcessingLogs fl) w, rec.wellShaped = true := by
  unfold emitted generatePaymentProcessingLogs generatePaymentProcessingLogsWith
  simp only [Gen.bind_apply]
  split_ifs
  · exact wellShaped_two rfl rfl rfl
  · exact wellShaped_one rfl rfl

theorem wellShaped_security (now : Int) (w : World) :
    ∀ rec ∈ emitted (generateSecurityEventLogs now) w, rec.wellShaped = true := by
  unfold emitted generateSecurityEventLogs
  simp only [Gen.bind_apply]
  split_ifs with h1
  · simp only [Gen.bind_apply]
    split_ifs with h2
    · exact wellShaped_two rfl rfl rfl
    · exact wellShaped_one rfl rfl
  · exact wellShaped_one rfl rfl

theorem wellShaped_dispatch (fl : ℚ → ℚ) (now : Int) (scenario : Nat) (w : World) :
    ∀ rec ∈ emitted (dispatch fl now scenario) w, rec.wellShaped = true := by
  unfold dispatch
  split
  · exact wellShaped_businessKPI fl w
  · exact wellShaped_transaction fl w
  · exact wellShaped_error w
  · exact wellShaped_performance fl w
  · exact wellShaped_userActivity w
  · exact wellShaped_apiRequest w
  · exact wellShaped_payment fl w
  · exact wellShaped_security now w
  · intro rec hrec
    have : emitted (pure ()) w = [] := by
      unfold emitted
      exact List.drop_length _
    rw [this] at hrec
    exact absurd hrec (List.not_mem_nil rec)

theorem wellShaped_spec {rec : Record} (h : rec.wellShaped = true) :
    ∃ shape ∈ recordShapes,
      rec.get "event_type" = some (.str shape.1) ∧ rec.keys = shape.2 := by
  unfold Record.wellShaped at h
  rw [List.any_eq_true] at h
  obtain ⟨shape, hmem, hs⟩ := h
  rw [Bool.and_eq_true, beq_iff_eq, beq_iff_eq] at hs
  exact ⟨shape, hmem, hs.1, hs.2⟩

theorem recordShapes_functional :
    ∀ p ∈ recordShapes, ∀ q ∈ recordShapes, p.1 = q.1 → p.2 = q.2 := by
  decide

theorem recordShapes_sound :
    ∀ p ∈ recordShapes, p.1 ≠ "" ∧ p.2.Nodup ∧ "event_type" ∈ p.2 := by
  decide

/-- C7: every record emitted by any of the eight scenario generators, under any draws,
has the key event_type with a non-empty string value, and two records with the same
event_type value (from the same or different invocations) have the same field names. -/
theorem record_shape_invariant :
    (∀ (fl : ℚ → ℚ) (now : Int) (scenario : Nat) (w : World),
      ∀ rec ∈ emitted (dispatch fl now scenario) w,
        "event_type" ∈ rec.keys ∧ rec.keys.Nodup ∧
        ∃ eventType : String,
          eventType ≠ "" ∧ rec.get "event_type" = some (.str eventType)) ∧
    (∀ (fl₁ fl₂ : ℚ → ℚ) (now₁ now₂ : Int) (scenario₁ scenario₂ : Nat) (w₁ w₂ : World),
      ∀ rec₁ ∈ emitted (dispatch fl₁ now₁ scenario₁) w₁,
      ∀ rec₂ ∈ emitted (dispatch fl₂ now₂ scenario₂) w₂,
        rec₁.get "event_type" = rec₂.get "event_type" → rec₁.keys = rec₂.keys) := by
  constructor
  · intro fl now scenario w rec hrec
    obtain ⟨shape, hmem, hev, hkeys⟩ :=
      wellShaped_spec (wellShaped_dispatch fl now scenario w rec hrec)
    obtain ⟨h1, h2, h3⟩ := recordShapes_sound shape hmem
    rw [hkeys]
    exact ⟨h3, h2, shape.1, h1, hev⟩
  · intro fl₁ fl₂ now₁ now₂ scenario₁ scenario₂ w₁ w₂ rec₁ hrec₁ rec₂ hrec₂ heq
    obtain ⟨p, hp, hev₁, hkeys₁⟩ :=
      wellShaped_spec (wellShaped_dispatch fl₁ now₁ scenario₁ w₁ rec₁ hrec₁)
    obtain ⟨q, hq, hev₂, hkeys₂⟩ :=
      wellShaped_spec (wellShaped_dispatch fl₂ now₂ scenario₂ w₂ rec₂ hrec₂)
    rw [hev₁, hev₂] at heq
    have hpq : p.1 = q.1 := by
      injection heq with h
      injection h
    rw [hkeys₁, hkeys₂]
    exact recordShapes_functional p hp q hq hpq

/-- Witness of C7 on the user-activity scenario (index 4): it emits one record, and every
record it emits has the key event_type. -/
theorem record_shape_invariant_witness :
    (emitted (dispatch id 0 4) ⟨0, fun _ => 0, fun _ => 0, []⟩).length = 1 ∧
    ((emitted (dispatch id 0 4) ⟨0, fun _ => 0, fun _ => 0, []⟩).all
      fun rec => decide ("event_type" ∈ rec.keys)) = true :=
  ⟨rfl, List.all_eq_true.2 fun rec hrec =>
    decide_eq_true
      (record_shape_invariant.1 id 0 4 ⟨0, fun _ => 0, fun _ => 0, []⟩ rec hrec).1⟩

end LogsDemo
